import Mathlib

/-!
Verification of the song identity / deduplication subsystem and the score
reconciliation engine of wavebreaker-rs.

The Rust source under `src/` is shallowly embedded: the durable store
(Postgres) and the aggregate cache (Redis skill points) are a single explicit
`DbState`; every fallible database operation returns `Except DbError _`.
Queries consult the `select_fails` / `insert_fails` flags of the state so that
store failures and their propagation (or swallowing) can be stated.

Definitions are translated from:
- `src/models/songs.rs` (`Song::delete`, `Song::merge_into`,
  `NewSong::find_or_create`),
- `src/models/rivalries.rs` (`Rivalry::is_mutual`),
- `src/game/gameplay.rs` (`send_ride`),
- `src/game/helpers.rs` (`ticket_auth` under `cfg!(test)`).

Parts of the repository that are not in the snapshot (`models/scores.rs`,
`models/extra_song_info.rs`, `models/players.rs`, `util/game_types.rs`) are
modelled from the spec; each such definition carries a doc comment starting
with `Modelled from the spec:`.
-/

namespace Wavebreaker

/-- Database / store errors (diesel's `NotFound` versus every other failure of
the durable or cache store). -/
inductive DbError
  | notFound
  | storeFailure
deriving DecidableEq, Repr

/-- Modelled from the spec: `League` (util/game_types.rs is not in the
snapshot) is "a gameplay mode/category partitioning scores". -/
inductive League
  | casual
  | pro
  | elite
deriving DecidableEq, Repr

/-- `Song` row (src/models/songs.rs). `created_at` is an abstract timestamp. -/
structure Song where
  id : Int
  title : String
  artist : String
  created_at : Int
  modifiers : Option (List (Option String))
deriving DecidableEq, Repr

/-- Modelled from the spec: `ExtraSongInfo` (models/extra_song_info.rs is not
in the snapshot) "belongs to exactly one Song, holds external-metadata
identifiers, normalized external title/artist and two alias lists"; the fields
below are the ones `songs.rs` uses (`musicbrainz_title`, `musicbrainz_artist`,
`aliases_title`, `aliases_artist`, `song_id`). -/
structure ExtraSongInfo where
  id : Int
  song_id : Int
  musicbrainz_title : Option String
  musicbrainz_artist : Option String
  aliases_title : Option (List (Option String))
  aliases_artist : Option (List (Option String))
deriving DecidableEq, Repr

/-- Modelled from the spec: `Score` (models/scores.rs is not in the snapshot)
"belongs to exactly one (Player, Song, League) triple; holds numeric score,
play count, vehicle/character used, track-shape and stat blobs, feats list,
song length, thresholds". Field names follow the columns used by
`songs.rs` and `gameplay.rs`. -/
structure Score where
  id : Int
  player_id : Int
  song_id : Int
  league : League
  score : Int
  play_count : Int
  vehicle : Int
  track_shape : List Int
  xstats : List Int
  density : Int
  feats : List String
  song_length : Int
  gold_threshold : Int
  iss : Int
  isj : Int
deriving DecidableEq, Repr

/-- `Rivalry` row (src/models/rivalries.rs): directed edge challenger → rival. -/
structure Rivalry where
  challenger_id : Int
  rival_id : Int
  established_at : Int
deriving DecidableEq, Repr

/-- Modelled from the spec: `Player` (models/players.rs is not in the
snapshot): "identifier, external (Steam) identity (unique), display name". -/
structure Player where
  id : Int
  steam_player_id : Int
  username : String
deriving DecidableEq, Repr

/-- The combined durable store (Postgres tables) and aggregate cache (Redis
skill points, an association list player id ↦ cumulative points).
`select_fails` / `insert_fails` make SELECT / INSERT statements fail, so that
error propagation can be observed; UPDATE/DELETE statements are kept
infallible (no claim depends on their failure). -/
structure DbState where
  songs : List Song
  extra_infos : List ExtraSongInfo
  scores : List Score
  rivalries : List Rivalry
  players : List Player
  skill_points : List (Int × Int)
  next_song_id : Int
  next_extra_id : Int
  next_score_id : Int
  next_player_id : Int
  select_fails : Bool
  insert_fails : Bool
deriving DecidableEq, Repr

/-- Read a player's cumulative skill points from the cache (0 when absent,
matching Redis ZSCORE of a missing member treated as 0). -/
def getPoints : List (Int × Int) → Int → Int
  | [], _ => 0
  | e :: rest, pid => if e.1 = pid then e.2 else getPoints rest pid

/-- Increment a player's skill points by `delta` (Redis ZINCRBY: creates the
member with the delta when absent). -/
def addPoints : List (Int × Int) → Int → Int → List (Int × Int)
  | [], pid, delta => [(pid, delta)]
  | e :: rest, pid, delta =>
    if e.1 = pid then (e.1, e.2 + delta) :: rest
    else e :: addPoints rest pid delta

/-- Modelled from the spec: `Score::delete` (models/scores.rs is not in the
snapshot). Per §4.2/§3 it removes the Score row and "releases its cache
contribution": the player's skill points are decremented by the score value. -/
def Score.delete (self : Score) (st : DbState) : Except DbError DbState :=
  .ok { st with
        scores := st.scores.filter (fun s => !decide (s.id = self.id)),
        skill_points := addPoints st.skill_points self.player_id (-self.score) }

/-- diesel `save_changes` on a `Score`: write the whole struct back to the row
with the same primary key. -/
def saveScore (row : Score) (st : DbState) : DbState :=
  { st with scores := st.scores.map (fun s => if s.id = row.id then row else s) }

/-- The manual cascade loop of `Song::delete`: delete each associated Score
via `Score::delete` (src/models/songs.rs lines 43-49). -/
def deleteScores : List Score → DbState → Except DbError DbState
  | [], st => .ok st
  | sc :: rest, st =>
    match sc.delete st with
    | .error e => .error e
    | .ok st1 => deleteScores rest st1

/-- `Song::delete` (src/models/songs.rs lines 30-55): load all scores of the
song, delete each one (releasing its cache contribution), then delete the
song row. -/
def Song.delete (self : Song) (st : DbState) : Except DbError DbState :=
  if st.select_fails then .error .storeFailure
  else
    match deleteScores (st.scores.filter (fun s => decide (s.song_id = self.id))) st with
    | .error e => .error e
    | .ok st1 =>
      .ok { st1 with songs := st1.songs.filter (fun s => !decide (s.id = self.id)) }

/-- One iteration of the merge loop of `Song::merge_into` (src/models/songs.rs
lines 82-109): walk the in-memory `target_scores` vector looking for the first
entry with the same player and league as `own`.
- no match (base case): re-point the duplicate score's `song_id` to the target
  with a partial UPDATE;
- match with strictly lower target score: delete the target's row from the
  store (it stays in the vector), then save `own` with the target's song id
  and the summed play count;
- otherwise: add `own`'s play count onto the target entry, save it, and delete
  `own`'s row.
Returns the updated vector and state. -/
def mergeOne (target_id : Int) (own : Score) :
    List Score → DbState → Except DbError (List Score × DbState)
  | [], st =>
    .ok ([], { st with
               scores := st.scores.map
                 (fun s => if s.id = own.id then { s with song_id := target_id } else s) })
  | t :: rest, st =>
    if t.player_id = own.player_id ∧ t.league = own.league then
      if t.score < own.score then
        match t.delete st with
        | .error e => .error e
        | .ok st1 =>
          let own' := { own with song_id := target_id,
                                 play_count := own.play_count + t.play_count }
          .ok (t :: rest, saveScore own' st1)
      else
        let t' := { t with play_count := t.play_count + own.play_count }
        match own.delete (saveScore t' st) with
        | .error e => .error e
        | .ok st2 => .ok (t' :: rest, st2)
    else
      match mergeOne target_id own rest st with
      | .error e => .error e
      | .ok (rest', st') => .ok (t :: rest', st')

/-- The `for own_score in own_scores` loop of `Song::merge_into`. -/
def mergeLoop (target_id : Int) :
    List Score → List Score → DbState → Except DbError (List Score × DbState)
  | [], ts, st => .ok (ts, st)
  | o :: os, ts, st =>
    match mergeOne target_id o ts st with
    | .error e => .error e
    | .ok (ts', st') => mergeLoop target_id os ts' st'

/-- The `should_alias` step of `Song::merge_into` (src/models/songs.rs lines
111-144). When the target already has an `ExtraSongInfo` row, the source
pushes the duplicate's artist and title onto `.clone()`d copies of the alias
lists and drops them, so `save_changes` writes the row back unchanged. When
there is none, a new row holding the two aliases is inserted. -/
def aliasStep (self target : Song) (should_alias : Bool) (st : DbState) :
    Except DbError DbState :=
  if should_alias then
    if st.select_fails then .error .storeFailure
    else
      match st.extra_infos.find? (fun e => decide (e.song_id = target.id)) with
      | some tei =>
        .ok { st with
              extra_infos := st.extra_infos.map (fun e => if e.id = tei.id then tei else e) }
      | none =>
        if st.insert_fails then .error .storeFailure
        else
          .ok { st with
                extra_infos := st.extra_infos ++
                  [{ id := st.next_extra_id, song_id := target.id,
                     musicbrainz_title := none, musicbrainz_artist := none,
                     aliases_title := some [some self.title],
                     aliases_artist := some [some self.artist] }],
                next_extra_id := st.next_extra_id + 1 }
  else .ok st

/-- `Song::merge_into` (src/models/songs.rs lines 61-150): load the target
song and both score lists, run the merge loop, run the alias step, then
delete the duplicate song (`self`). -/
def Song.merge_into (self : Song) (target_id : Int) (should_alias : Bool)
    (st : DbState) : Except DbError DbState :=
  if st.select_fails then .error .storeFailure
  else
    match st.songs.find? (fun s => decide (s.id = target_id)) with
    | none => .error .notFound
    | some target =>
      let target_scores := st.scores.filter (fun s => decide (s.song_id = target.id))
      let own_scores := st.scores.filter (fun s => decide (s.song_id = self.id))
      match mergeLoop target.id own_scores target_scores st with
      | .error e => .error e
      | .ok (_, st1) =>
        match aliasStep self target should_alias st1 with
        | .error e => .error e
        | .ok st2 => self.delete st2

/-- `NewSong` (src/models/songs.rs lines 224-231). -/
structure NewSong where
  title : String
  artist : String
  modifiers : Option (List String)
deriving DecidableEq, Repr

/-- ASCII lowercasing of one character, modelling what SQL `lower()` does to
the stored text. -/
def lowerChar (c : Char) : Char :=
  if 'A' ≤ c ∧ c ≤ 'Z' then Char.ofNat (c.toNat + 32) else c

/-- Model of the SQL `lower` function declared by `sql_function!` in
`find_or_create` (src/models/songs.rs line 277): it is applied to the STORED
column value only, never to the input. -/
def sqlLower (s : String) : String := ⟨s.data.map lowerChar⟩

/-- The title disjunction of the `find_or_create` filter (src/models/songs.rs
lines 283-285): exact own-title match, OR the lowercased stored MusicBrainz
title equals the input, OR the alias array contains the input (Postgres `@>`
on a non-null element, exact). -/
def titleMatches (ns : NewSong) (s : Song) (e : ExtraSongInfo) : Bool :=
  decide (s.title = ns.title)
  || (match e.musicbrainz_title with
      | some t => decide (sqlLower t = ns.title)
      | none => false)
  || (e.aliases_title.getD []).contains (some ns.title)

/-- The artist disjunction of the `find_or_create` filter (src/models/songs.rs
lines 286-288). -/
def artistMatches (ns : NewSong) (s : Song) (e : ExtraSongInfo) : Bool :=
  decide (s.artist = ns.artist)
  || (match e.musicbrainz_artist with
      | some a => decide (sqlLower a = ns.artist)
      | none => false)
  || (e.aliases_artist.getD []).contains (some ns.artist)

/-- The `songs INNER JOIN extra_song_info` relation queried by
`find_or_create`: only songs owning an `ExtraSongInfo` row appear. -/
def joinExtra (st : DbState) : List (Song × ExtraSongInfo) :=
  st.songs.flatMap
    (fun s => (st.extra_infos.filter (fun e => decide (e.song_id = s.id))).map
      (fun e => (s, e)))

/-- The INSERT arm of `find_or_create` (src/models/songs.rs lines 298-303):
insert the `NewSong` values and return the fresh row. -/
def insertNewSong (ns : NewSong) (st : DbState) : Except DbError (Song × DbState) :=
  if st.insert_fails then .error .storeFailure
  else
    let s : Song := { id := st.next_song_id, title := ns.title, artist := ns.artist,
                      created_at := 0,
                      modifiers := ns.modifiers.map (fun l => l.map some) }
    .ok (s, { st with songs := st.songs ++ [s], next_song_id := st.next_song_id + 1 })

/-- `NewSong::find_or_create` (src/models/songs.rs lines 266-305): run the
joined filtered lookup; on `Ok` return the song with no write; the source
matches `Err(_)` — every lookup failure, NotFound or store failure alike —
with the insert arm. -/
def NewSong.find_or_create (self : NewSong) (st : DbState) :
    Except DbError (Song × DbState) :=
  if st.select_fails then insertNewSong self st
  else
    match (joinExtra st).find? (fun p => titleMatches self p.1 p.2 && artistMatches self p.1 p.2) with
    | some p => .ok (p.1, st)
    | none => insertNewSong self st

/-- `Rivalry::is_mutual` (src/models/rivalries.rs lines 19-28): the function
returns `Bool`, not a result — it is `.is_ok()` of a lookup for the reversed
edge, so a failing store also yields `false`. It performs no write (the state
is not returned). -/
def Rivalry.is_mutual (self : Rivalry) (st : DbState) : Bool :=
  if st.select_fails then false
  else
    st.rivalries.any
      (fun r => decide (r.challenger_id = self.rival_id) && decide (r.rival_id = self.challenger_id))

/-- `NewRivalry::create` (src/models/rivalries.rs lines 74-79): plain insert. -/
def NewRivalry.create (challenger rival : Int) (establishedAt : Int) (st : DbState) :
    Except DbError (Rivalry × DbState) :=
  if st.insert_fails then .error .storeFailure
  else
    let r : Rivalry := { challenger_id := challenger, rival_id := rival,
                         established_at := establishedAt }
    .ok (r, { st with rivalries := st.rivalries ++ [r] })

/-- Modelled from the spec: `NewScore` (models/scores.rs is not in the
snapshot), the submitted ride data handed to `create_or_update`. -/
structure NewScore where
  player_id : Int
  song_id : Int
  league : League
  score : Int
  track_shape : List Int
  xstats : List Int
  density : Int
  vehicle : Int
  feats : List String
  song_length : Int
  gold_threshold : Int
  iss : Int
  isj : Int
deriving DecidableEq, Repr

/-- Modelled from the spec: `NewScore::create_or_update` (models/scores.rs is
not in the snapshot), from §4.3 and the §8 end-to-end scenario: look up the
Score for (player, song, league); if none, insert with `play_count = 1` and
add the score value to the cache; if one exists, increment `play_count`, and
only when the submitted value is strictly greater overwrite the stored score
fields and add the positive delta to the cache. -/
def NewScore.create_or_update (ns : NewScore) (st : DbState) :
    Except DbError (Score × DbState) :=
  if st.select_fails then .error .storeFailure
  else
    match st.scores.find?
        (fun s => decide (s.player_id = ns.player_id) && decide (s.song_id = ns.song_id)
          && decide (s.league = ns.league)) with
    | none =>
      if st.insert_fails then .error .storeFailure
      else
        let row : Score :=
          { id := st.next_score_id, player_id := ns.player_id,
            song_id := ns.song_id, league := ns.league, score := ns.score, play_count := 1,
            vehicle := ns.vehicle, track_shape := ns.track_shape, xstats := ns.xstats,
            density := ns.density, feats := ns.feats, song_length := ns.song_length,
            gold_threshold := ns.gold_threshold, iss := ns.iss, isj := ns.isj }
        .ok (row, { st with scores := st.scores ++ [row],
                            next_score_id := st.next_score_id + 1,
                            skill_points := addPoints st.skill_points ns.player_id ns.score })
    | some ex =>
      if ex.score < ns.score then
        let row : Score :=
          { ex with
            play_count := ex.play_count + 1, score := ns.score,
            vehicle := ns.vehicle, track_shape := ns.track_shape, xstats := ns.xstats,
            density := ns.density, feats := ns.feats, song_length := ns.song_length,
            gold_threshold := ns.gold_threshold, iss := ns.iss, isj := ns.isj }
        .ok (row, { saveScore row st with
                    skill_points := addPoints st.skill_points ns.player_id (ns.score - ex.score) })
      else
        let row : Score := { ex with play_count := ex.play_count + 1 }
        .ok (row, saveScore row st)

/-- Modelled from the spec: `Player::find_by_steam_id` (models/players.rs is
not in the snapshot); §3: a Player is "created on first successful score
submission", so the lookup creates the row when the Steam identity is new. -/
def Player.find_by_steam_id (sid : Int) (st : DbState) :
    Except DbError (Player × DbState) :=
  if st.select_fails then .error .storeFailure
  else
    match st.players.find? (fun p => decide (p.steam_player_id = sid)) with
    | some p => .ok (p, st)
    | none =>
      if st.insert_fails then .error .storeFailure
      else
        let p : Player := { id := st.next_player_id, steam_player_id := sid, username := "" }
        .ok (p, { st with players := st.players ++ [p],
                          next_player_id := st.next_player_id + 1 })

/-- Errors a route handler can surface (util/errors.rs is not in the
snapshot): authentication failure, database error, or a malformed delimited
numeric field. -/
inductive RouteError
  | auth
  | db (e : DbError)
  | malformed
deriving DecidableEq, Repr

/-- Decimal digits to a natural number, accumulator style (model of the digit
loop of Rust's integer parsing). -/
def parseNatAux : List Char → Nat → Option Nat
  | [], acc => some acc
  | c :: rest, acc =>
    if '0' ≤ c ∧ c ≤ '9' then parseNatAux rest (acc * 10 + (c.toNat - 48)) else none

/-- Model of Rust's `str::parse::<i32>` on a character list: optional leading
minus, then decimal digits, empty input rejected (the i32 range check is out
of scope — no claim involves overflow). -/
def parseIntChars : List Char → Option Int
  | [] => none
  | '-' :: rest =>
    if rest.isEmpty then none else (parseNatAux rest 0).map (fun n => -(n : Int))
  | l => (parseNatAux l 0).map (fun n => (n : Int))

/-- Split a character list at every occurrence of `sep` (model of Rust's
`str::split(char)`); the accumulator holds the current piece reversed. -/
def splitCharAux (sep : Char) : List Char → List Char → List (List Char)
  | [], acc => [acc.reverse]
  | c :: rest, acc =>
    if c = sep then acc.reverse :: splitCharAux sep rest []
    else splitCharAux sep rest (c :: acc)

/-- Modelled from the spec: `split_x_separated` (util/game_types.rs is not in
the snapshot) parses an `x`-separated list of integers, rejecting malformed
fields before any write (§4.3). -/
def split_x_separated (s : String) : Except RouteError (List Int) :=
  match (splitCharAux 'x' s.data []).mapM parseIntChars with
  | some l => .ok l
  | none => .error .malformed

/-- The comma-separated `xstats` parse inline in `send_ride`
(src/game/gameplay.rs lines 136-140). -/
def parseXstats (s : String) : Except RouteError (List Int) :=
  match (splitCharAux ',' s.data []).mapM parseIntChars with
  | some l => .ok l
  | none => .error .malformed

/-- Split a character list at every occurrence of the two-character
separator ", " (model of the `feats.split(", ")` call in `send_ride`,
src/game/gameplay.rs line 143). -/
def splitFeatsAux : List Char → List Char → List (List Char)
  | [], acc => [acc.reverse]
  | [c], acc => [(c :: acc).reverse]
  | c1 :: c2 :: rest, acc =>
    if c1 = ',' ∧ c2 = ' ' then acc.reverse :: splitFeatsAux rest []
    else splitFeatsAux (c2 :: rest) (c1 :: acc)

/-- The feats list split on ", " as strings. -/
def splitFeats (s : String) : List String :=
  (splitFeatsAux s.data []).map (fun l => ⟨l⟩)

/-- The opaque Steam authentication collaborator: maps a ticket to a Steam
identity or fails. -/
structure Steam where
  authenticate_user_ticket : Int → String → Except RouteError Int

/-- `ticket_auth` under `cfg!(test)` (src/game/helpers.rs lines 8-19): the
function returns the fixed Steam identity of m1nt_ before ever touching the
`steam` client, for every ticket. -/
def ticket_auth_test_cfg (ticket : String) (steam : Steam) : Except RouteError Int :=
  .ok 76561198307851839

/-- `SendRideRequest` (src/game/gameplay.rs lines 60-79). -/
structure SendRideRequest where
  ticket : String
  song_id : Int
  score : Int
  vehicle : Int
  league : League
  feats : String
  song_length : Int
  track_shape : String
  density : Int
  xstats : String
  gold_threshold : Int
  iss : Int
  isj : Int
deriving DecidableEq, Repr

/-- `BeatScore` (src/game/gameplay.rs lines 92-107). -/
structure BeatScore where
  dethroned : Bool
  friend : Bool
  rival_name : String
  rival_score : Int
  my_score : Int
  reign_seconds : Int
deriving DecidableEq, Repr

/-- `SendRideResponse` (src/game/gameplay.rs lines 81-90). -/
structure SendRideResponse where
  status : String
  song_id : Int
  beat_score : BeatScore
deriving DecidableEq, Repr

/-- `send_ride` (src/game/gameplay.rs lines 116-165): authenticate, resolve
the player, parse the delimited blobs, `create_or_update` the score, and
answer with the placeholder `BeatScore` literals under the
`TODO: Properly implement dethroning` comment. The authentication outcome is
a parameter (the collaborator is external). -/
def send_ride (auth : Except RouteError Int) (payload : SendRideRequest)
    (st : DbState) : Except RouteError (SendRideResponse × DbState) :=
  match auth with
  | .error e => .error e
  | .ok steam_player =>
    match Player.find_by_steam_id steam_player st with
    | .error e => .error (.db e)
    | .ok (player, st1) =>
      match split_x_separated payload.track_shape with
      | .error e => .error e
      | .ok ts =>
        match parseXstats payload.xstats with
        | .error e => .error e
        | .ok xs =>
          match NewScore.create_or_update
              { player_id := player.id, song_id := payload.song_id,
                league := payload.league, score := payload.score, track_shape := ts,
                xstats := xs, density := payload.density, vehicle := payload.vehicle,
                feats := splitFeats payload.feats, song_length := payload.song_length,
                gold_threshold := payload.gold_threshold, iss := payload.iss,
                isj := payload.isj } st1 with
          | .error e => .error (.db e)
          | .ok (score, st2) =>
            .ok ({ status := "allgood", song_id := score.song_id,
                   beat_score := { dethroned := true, friend := true,
                                   rival_name := "test", rival_score := 143,
                                   my_score := score.score, reign_seconds := 143 } }, st2)

/-! ### Auxiliary definitions for the proofs -/

/-- Everything of a Score except its play count: the fields the merge loop's
matching, comparison and identity depend on. The loop only ever rewrites play
counts of in-memory target entries, so the key list of the vector is an
invariant of the loop. -/
def Score.key (x : Score) : Score := { x with play_count := 0 }

/-- `FindsSelf ts q`: walking `ts` front to back, the first entry whose
(player, league) pair equals `q`'s has `q`'s score value and `q`'s row id —
i.e. the merge loop's `find` resolves `q` to its own copy. -/
def FindsSelf : List Score → Score → Prop
  | [], _ => False
  | e :: rest, q =>
    if e.player_id = q.player_id ∧ e.league = q.league
    then e.score = q.score ∧ e.id = q.id
    else FindsSelf rest q

/-- Remove from `l` every row whose id occurs in `own`, in the order the merge
loop deletes them. -/
def removeIds : List Score → List Score → List Score
  | [], l => l
  | o :: os, l => removeIds os (l.filter (fun s => !decide (s.id = o.id)))

/-! ### Concrete fixtures -/

/-- A fresh store: no rows, healthy connections. -/
def emptyState : DbState :=
  { songs := [], extra_infos := [], scores := [], rivalries := [], players := [],
    skill_points := [], next_song_id := 1, next_extra_id := 1, next_score_id := 1,
    next_player_id := 1, select_fails := false, insert_fails := false }

/-- Rivalry edge 1 → 2. -/
def rivAB : Rivalry := { challenger_id := 1, rival_id := 2, established_at := 0 }

/-- Rivalry edge 2 → 1. -/
def rivBA : Rivalry := { challenger_id := 2, rival_id := 1, established_at := 0 }

/-- Store holding both rivalry directions. -/
def rivState : DbState := { emptyState with rivalries := [rivAB, rivBA] }

/-- A song whose metadata row carries a lowercase normalized title. -/
def mbSong : Song :=
  { id := 1, title := "Own Title", artist := "ArtistX", created_at := 0, modifiers := none }

/-- Metadata row of `mbSong` with normalized external title "bar". -/
def mbInfo : ExtraSongInfo :=
  { id := 5, song_id := 1, musicbrainz_title := some "bar", musicbrainz_artist := none,
    aliases_title := none, aliases_artist := none }

/-- Store holding `mbSong` with its metadata row. -/
def mbState : DbState :=
  { emptyState with songs := [mbSong], extra_infos := [mbInfo], next_song_id := 2,
                    next_extra_id := 6 }

/-- Resolver input with the uppercase title "BAR". -/
def upperQuery : NewSong := { title := "BAR", artist := "ArtistX", modifiers := none }

/-- Metadata row of `mbSong` whose stored normalized title is uppercase. -/
def mbInfoUpper : ExtraSongInfo :=
  { id := 5, song_id := 1, musicbrainz_title := some "BAR", musicbrainz_artist := none,
    aliases_title := none, aliases_artist := none }

/-- Store holding `mbSong` with the uppercase-titled metadata row. -/
def mbStateUpper : DbState :=
  { emptyState with songs := [mbSong], extra_infos := [mbInfoUpper], next_song_id := 2,
                    next_extra_id := 6 }

/-- Resolver input with the lowercase title "bar". -/
def lowerQuery : NewSong := { title := "bar", artist := "ArtistX", modifiers := none }

/-- A (title, artist) pair used to exercise the resolver twice. -/
def resolverInput : NewSong := { title := "a", artist := "b", modifiers := none }

/-- Resolver input exactly matching `mbSong`'s own title/artist. -/
def exactQuery : NewSong := { title := "Own Title", artist := "ArtistX", modifiers := none }

/-- A store with a matching song and both rivalry edges whose SELECT
statements fail. -/
def failingState : DbState :=
  { emptyState with rivalries := [rivAB, rivBA], songs := [mbSong],
                    extra_infos := [mbInfo], next_song_id := 2, next_extra_id := 6,
                    select_fails := true }

/-- Duplicate song to be merged away. -/
def mergeDup : Song :=
  { id := 1, title := "Dup Title", artist := "Dup Artist", created_at := 0, modifiers := none }

/-- Canonical target song of the merge. -/
def mergeCanon : Song :=
  { id := 2, title := "Canon", artist := "Canon Artist", created_at := 0, modifiers := none }

/-- The target's pre-existing `ExtraSongInfo` row with empty alias lists. -/
def mergeAliasTarget : ExtraSongInfo :=
  { id := 10, song_id := 2, musicbrainz_title := none, musicbrainz_artist := none,
    aliases_title := some [], aliases_artist := some [] }

/-- Store with the duplicate, the target and the target's metadata row; no
scores. -/
def mergeAliasState : DbState :=
  { emptyState with songs := [mergeDup, mergeCanon], extra_infos := [mergeAliasTarget],
                    next_song_id := 3, next_extra_id := 11 }

/-- A ride submission for player 7 on song 5, Casual league, value 100. -/
def submittedScore : NewScore :=
  { player_id := 7, song_id := 5, league := .casual, score := 100, track_shape := [1, 2],
    xstats := [3], density := 0, vehicle := 0, feats := [], song_length := 10,
    gold_threshold := 1, iss := 0, isj := 0 }

/-- Player 7's stored score row: value 80 after 2 plays on song 5, Casual. -/
def storedScore : Score :=
  { id := 1, player_id := 7, song_id := 5, league := .casual, score := 80, play_count := 2,
    vehicle := 1, track_shape := [], xstats := [], density := 0, feats := [],
    song_length := 10, gold_threshold := 1, iss := 0, isj := 0 }

/-- Store holding `storedScore` and its cache contribution. -/
def scoreState : DbState :=
  { emptyState with scores := [storedScore], next_score_id := 2, skill_points := [(7, 80)] }

/-- A concrete well-formed ride submission payload. -/
def ridePayload : SendRideRequest :=
  { ticket := "t", song_id := 5, score := 100, vehicle := 0, league := .casual,
    feats := "a, b", song_length := 10, track_shape := "1x2", density := 3,
    xstats := "4,5", gold_threshold := 1, iss := 0, isj := 0 }

/-! ### Claim theorems -/

/-- C10: in test configuration `ticket_auth` returns `Ok` with the fixed
Steam identity 76561198307851839 for every ticket string and every Steam
client — any two calls agree, no authentication failure is reachable, and the
service is never consulted. -/
theorem ticket_auth_test_cfg_constant :
    ∀ (t1 t2 : String) (s1 s2 : Steam),
      ticket_auth_test_cfg t1 s1 = ticket_auth_test_cfg t2 s2 ∧
      ticket_auth_test_cfg t1 s1 = .ok 76561198307851839 :=
  fun _ _ _ _ => ⟨rfl, rfl⟩

/-- C7: over a healthy store, `is_mutual r` is true iff a Rivalry row with
challenger and rival swapped relative to `r` exists; the embedding returns
only a `Bool`, so no write is performed. -/
theorem is_mutual_iff_reverse_edge (r : Rivalry) (st : DbState)
    (h : st.select_fails = false) :
    Rivalry.is_mutual r st = true ↔
      ∃ r' ∈ st.rivalries, r'.challenger_id = r.rival_id ∧ r'.rival_id = r.challenger_id := by
  unfold Rivalry.is_mutual
  simp [h, List.any_eq_true]

/-- Witness for C7: with both edges (1→2) and (2→1) present, `is_mutual` on
(1→2) is true. -/
theorem is_mutual_iff_reverse_edge_witness :
    Rivalry.is_mutual rivAB rivState = true :=
  (is_mutual_iff_reverse_edge rivAB rivState rfl).mpr
    ⟨rivBA, by decide, by decide, by decide⟩

/-- C2 (refuting the claim as stated): on an empty store, the first
`find_or_create` for ("a", "b") inserts Song 1; the second call on the
resulting store, with no interleaving submission, does NOT return Song 1 —
the lookup inner-joins `songs` with `extra_song_info` and the fresh Song has
no `ExtraSongInfo` row, so the second call inserts again and returns Song 2,
leaving two Song rows. -/
theorem find_or_create_second_call_reinserts :
    Except.map (fun p => p.1.id) (resolverInput.find_or_create emptyState) = .ok 1 ∧
    Except.map (fun p => (p.1.id, p.2.songs.length))
        ((resolverInput.find_or_create emptyState).bind
          (fun p => resolverInput.find_or_create p.2))
      = .ok (2, 2) := by
  exact ⟨rfl, rfl⟩

/-- C3 (refuting the claim as stated): merging a duplicate into a target that
already owns an `ExtraSongInfo` row with `should_alias` set leaves the
target's alias lists unchanged — the source pushes onto `.clone()`d copies of
the lists, so the row is saved back exactly as it was and the duplicate's
title/artist never appear. -/
theorem merge_alias_append_lost :
    mergeAliasTarget.aliases_title = some [] ∧
    mergeAliasTarget.aliases_artist = some [] ∧
    Except.map (fun st => st.extra_infos) (mergeDup.merge_into 2 true mergeAliasState)
      = .ok [mergeAliasTarget] := by
  exact ⟨rfl, rfl, rfl⟩

/-- C6 (refuting the claim as stated): with a Song owning an `ExtraSongInfo`
whose normalized external title is the lowercase "bar" (and matching artist),
`find_or_create` called with the uppercase input "BAR" does NOT return that
Song: the SQL `lower()` is applied only to the stored value, `lower("bar") =
"bar" ≠ "BAR"`, so a fresh Song 2 is inserted next to the owner Song 1. -/
theorem find_or_create_upper_input_misses :
    Except.map (fun p => (p.1.id, p.2.songs.length)) (upperQuery.find_or_create mbState)
      = .ok (2, 2) := by
  exact rfl

/-- C6 amended: the normalized-metadata criterion is case-insensitive only in
the stored-to-input direction — a row matches iff lowercasing the stored
MusicBrainz title yields exactly the input title (with the artist matching as
well); stored values of any case match a lowercase input, and the song is
returned with no write. -/
theorem find_or_create_matches_lowercased_stored (ns : NewSong) (st : DbState)
    (s : Song) (e : ExtraSongInfo) (T : String)
    (hsel : st.select_fails = false)
    (hjoin : joinExtra st = [(s, e)])
    (hT : e.musicbrainz_title = some T)
    (hlow : sqlLower T = ns.title)
    (hartist : s.artist = ns.artist) :
    ns.find_or_create st = .ok (s, st) := by
  unfold NewSong.find_or_create
  simp [hsel, hjoin, List.find?, titleMatches, artistMatches, hT, hlow, hartist]

/-- Witness for the amended C6: the stored uppercase normalized title "BAR"
is matched by the lowercase input "bar" and the owning Song is returned
unchanged. -/
theorem find_or_create_matches_lowercased_stored_witness :
    lowerQuery.find_or_create mbStateUpper = .ok (mbSong, mbStateUpper) :=
  find_or_create_matches_lowercased_stored lowerQuery mbStateUpper mbSong mbInfoUpper
    "BAR" rfl rfl rfl (by decide) rfl

/-- C8 (refuting the claim as stated): with failing SELECT statements,
`is_mutual` reports the store failure as the boolean `false` even though the
reverse edge is present, and `find_or_create` treats the failed lookup as "no
match" and answers with an insert (returning a fresh Song 2 and leaving two
Song rows), although the same input on a healthy store returns the existing
Song 1. -/
theorem store_failures_swallowed :
    (Rivalry.is_mutual rivAB failingState = false ∧
      rivBA ∈ failingState.rivalries ∧
      rivBA.challenger_id = rivAB.rival_id ∧ rivBA.rival_id = rivAB.challenger_id) ∧
    (Except.map (fun p => (p.1.id, p.2.songs.length))
      (exactQuery.find_or_create failingState) = .ok (2, 2)) ∧
    (Except.map (fun p => p.1.id)
      (exactQuery.find_or_create { failingState with select_fails := false }) = .ok 1) := by
  exact ⟨⟨rfl, by decide, rfl, rfl⟩, rfl, rfl⟩

/-- C8 amended: durable-store failures are propagated as typed errors by the
merge, song-deletion and score-reconciliation operations, but `is_mutual`
converts any lookup failure into the boolean `false`, and `find_or_create`
converts any lookup failure into the insert path, returning the freshly
inserted Song as a normal result. -/
theorem store_failure_propagation :
    (∀ (r : Rivalry) (st : DbState), st.select_fails = true →
      Rivalry.is_mutual r st = false) ∧
    (∀ (ns : NewSong) (st : DbState), st.select_fails = true → st.insert_fails = false →
      ∃ s, ns.find_or_create st
        = .ok (s, { st with songs := st.songs ++ [s],
                            next_song_id := st.next_song_id + 1 })) ∧
    (∀ (sg : Song) (tid : Int) (b : Bool) (st : DbState), st.select_fails = true →
      sg.merge_into tid b st = .error .storeFailure) ∧
    (∀ (sg : Song) (st : DbState), st.select_fails = true →
      Song.delete sg st = .error .storeFailure) ∧
    (∀ (ns : NewScore) (st : DbState), st.select_fails = true →
      ns.create_or_update st = .error .storeFailure) := by
  refine ⟨?_, ?_, ?_, ?_, ?_⟩
  · intro r st h
    unfold Rivalry.is_mutual
    simp [h]
  · intro ns st h hins
    refine ⟨{ id := st.next_song_id, title := ns.title, artist := ns.artist,
              created_at := 0, modifiers := ns.modifiers.map (fun l => l.map some) }, ?_⟩
    unfold NewSong.find_or_create insertNewSong
    simp [h, hins]
  · intro sg tid b st h
    unfold Song.merge_into
    simp [h]
  · intro sg st h
    unfold Song.delete
    simp [h]
  · intro ns st h
    unfold NewScore.create_or_update
    simp [h]

/-- Witness for the amended C8: each conjunct applied at a concrete input —
the swallowed `is_mutual` failure, the swallowed resolver lookup failure, and
the propagated merge / delete / reconciliation failures. -/
theorem store_failure_propagation_witness :
    Rivalry.is_mutual rivAB failingState = false ∧
    (∃ s, resolverInput.find_or_create failingState
      = .ok (s, { failingState with songs := failingState.songs ++ [s],
                                    next_song_id := failingState.next_song_id + 1 })) ∧
    mergeDup.merge_into 2 true failingState = .error .storeFailure ∧
    Song.delete mbSong failingState = .error .storeFailure ∧
    (submittedScore.create_or_update failingState = .error .storeFailure) :=
  ⟨store_failure_propagation.1 rivAB failingState rfl,
   store_failure_propagation.2.1 resolverInput failingState rfl rfl,
   store_failure_propagation.2.2.1 mergeDup 2 true failingState rfl,
   store_failure_propagation.2.2.2.1 mbSong failingState rfl,
   store_failure_propagation.2.2.2.2 submittedScore failingState rfl⟩

/-- Incrementing a player's cache entry changes exactly that player's reading
by the delta. -/
theorem getPoints_addPoints (c : List (Int × Int)) (p d : Int) :
    getPoints (addPoints c p d) p = getPoints c p + d := by
  induction c with
  | nil => simp [getPoints, addPoints]
  | cons e rest ih =>
    by_cases h : e.1 = p
    · simp [getPoints, addPoints, h]
    · simp [getPoints, addPoints, h, ih]

/-- C4: submitting against an existing Score for (player, song, league)
increments `play_count` by exactly 1 and writes the row back; when the
submitted value is strictly greater the stored score fields are overwritten
and the cached aggregate grows by exactly (new − old); otherwise the stored
row keeps its score value and the cache is untouched while the play-count
increment still persists. -/
theorem create_or_update_existing (ns : NewScore) (st : DbState) (ex : Score)
    (hsel : st.select_fails = false)
    (hfind : st.scores.find? (fun s =>
        decide (s.player_id = ns.player_id) && decide (s.song_id = ns.song_id)
          && decide (s.league = ns.league)) = some ex) :
    ∃ row st', ns.create_or_update st = .ok (row, st') ∧
      row.id = ex.id ∧
      row.play_count = ex.play_count + 1 ∧
      st'.scores = st.scores.map (fun s => if s.id = ex.id then row else s) ∧
      (ex.score < ns.score →
        row.score = ns.score ∧ row.vehicle = ns.vehicle ∧
        row.track_shape = ns.track_shape ∧ row.xstats = ns.xstats ∧
        row.feats = ns.feats ∧ row.gold_threshold = ns.gold_threshold ∧
        getPoints st'.skill_points ns.player_id
          = getPoints st.skill_points ns.player_id + (ns.score - ex.score)) ∧
      (¬ ex.score < ns.score →
        row = { ex with play_count := ex.play_count + 1 } ∧
        st'.skill_points = st.skill_points) := by
  unfold NewScore.create_or_update
  rw [hsel, hfind]
  by_cases hlt : ex.score < ns.score
  · exact ⟨_, _, if_pos hlt, rfl, rfl, rfl,
      fun _ => ⟨rfl, rfl, rfl, rfl, rfl, rfl, getPoints_addPoints _ _ _⟩,
      fun hc => absurd hlt hc⟩
  · exact ⟨_, _, if_neg hlt, rfl, rfl, rfl, fun hc => absurd hc hlt, fun _ => ⟨rfl, rfl⟩⟩

/-- Witness for C4: player 7's stored score 80 (play count 2) receives a
submission of 100 — the theorem applies with both hypotheses discharged
concretely. -/
theorem create_or_update_existing_witness :
    scoreState.select_fails = false ∧
    scoreState.scores.find? (fun s =>
        decide (s.player_id = submittedScore.player_id)
          && decide (s.song_id = submittedScore.song_id)
          && decide (s.league = submittedScore.league)) = some storedScore ∧
    (∃ row st', submittedScore.create_or_update scoreState = .ok (row, st') ∧
      row.id = storedScore.id ∧
      row.play_count = storedScore.play_count + 1 ∧
      st'.scores = scoreState.scores.map
        (fun s => if s.id = storedScore.id then row else s) ∧
      (storedScore.score < submittedScore.score →
        row.score = submittedScore.score ∧ row.vehicle = submittedScore.vehicle ∧
        row.track_shape = submittedScore.track_shape ∧
        row.xstats = submittedScore.xstats ∧
        row.feats = submittedScore.feats ∧
        row.gold_threshold = submittedScore.gold_threshold ∧
        getPoints st'.skill_points submittedScore.player_id
          = getPoints scoreState.skill_points submittedScore.player_id
            + (submittedScore.score - storedScore.score)) ∧
      (¬ storedScore.score < submittedScore.score →
        row = { storedScore with play_count := storedScore.play_count + 1 } ∧
        st'.skill_points = scoreState.skill_points)) :=
  ⟨rfl, rfl, create_or_update_existing submittedScore scoreState storedScore rfl rfl⟩

/-- Every successful `send_ride` answers with the placeholder rival-facing
literals of src/game/gameplay.rs lines 153-163, whatever the database held. -/
theorem send_ride_ok_beat_score (auth : Except RouteError Int)
    (payload : SendRideRequest) (st : DbState) (r : SendRideResponse) (st' : DbState)
    (h : send_ride auth payload st = .ok (r, st')) :
    r.beat_score.dethroned = true ∧ r.beat_score.friend = true ∧
    r.beat_score.rival_name = "test" ∧ r.beat_score.rival_score = 143 ∧
    r.beat_score.reign_seconds = 143 := by
  unfold send_ride at h
  split at h <;> try exact Except.noConfusion h
  split at h <;> try exact Except.noConfusion h
  split at h <;> try exact Except.noConfusion h
  split at h <;> try exact Except.noConfusion h
  split at h <;> try exact Except.noConfusion h
  rw [Except.ok.injEq, Prod.mk.injEq] at h
  obtain ⟨h1, -⟩ := h
  subst h1
  exact ⟨rfl, rfl, rfl, rfl, rfl⟩

/-- C5 (refuting the claim as stated): whenever `send_ride` succeeds, the
rival-facing response fields are the constants (dethroned = true, friend =
true, rival "test", rival score 143, reign 143) — they are placeholder
literals independent of the pre-submission database state, not values
computed from Rivalry edges and prior best scores. -/
theorem send_ride_rival_facts_constant (auth : Except RouteError Int)
    (payload : SendRideRequest) (st : DbState)
    (h : (send_ride auth payload st).toOption.isSome = true) :
    Except.map (fun p => (p.1.beat_score.dethroned, p.1.beat_score.friend,
      p.1.beat_score.rival_name, p.1.beat_score.rival_score,
      p.1.beat_score.reign_seconds)) (send_ride auth payload st)
      = .ok (true, true, "test", 143, 143) := by
  cases hr : send_ride auth payload st with
  | error e => rw [hr] at h; simp [Except.toOption] at h
  | ok pr =>
    obtain ⟨r, st'⟩ := pr
    obtain ⟨h1, h2, h3, h4, h5⟩ := send_ride_ok_beat_score auth payload st r st' hr
    simp [Except.map, h1, h2, h3, h4, h5]

/-- Witness for C5: a concrete successful submission (authenticated as Steam
id 9 against the empty store) whose response carries exactly the placeholder
rival facts. -/
theorem send_ride_rival_facts_constant_witness :
    Except.map (fun p => (p.1.beat_score.dethroned, p.1.beat_score.friend,
      p.1.beat_score.rival_name, p.1.beat_score.rival_score,
      p.1.beat_score.reign_seconds)) (send_ride (.ok 9) ridePayload emptyState)
      = .ok (true, true, "test", 143, 143) :=
  send_ride_rival_facts_constant (.ok 9) ridePayload emptyState (by rfl)

/-- The alias step always succeeds on a healthy store and touches only the
`extra_infos` table: scores, songs and the failure flags are unchanged. -/
theorem aliasStep_preserves (self target : Song) (b : Bool) (st : DbState)
    (hsel : st.select_fails = false) (hins : st.insert_fails = false) :
    ∃ st2, aliasStep self target b st = .ok st2 ∧ st2.scores = st.scores ∧
      st2.songs = st.songs ∧ st2.select_fails = st.select_fails := by
  cases b with
  | false => exact ⟨st, rfl, rfl, rfl, rfl⟩
  | true =>
    unfold aliasStep
    rw [hsel]
    cases hfe : st.extra_infos.find? (fun e => decide (e.song_id = target.id)) with
    | some tei =>
      exact ⟨_, rfl, rfl, rfl, rfl⟩
    | none =>
      rw [hins]
      exact ⟨_, rfl, rfl, rfl, rfl⟩

/-- Deleting a song none of whose scores remain only removes the song row. -/
theorem song_delete_of_no_scores (sg : Song) (st : DbState)
    (hsel : st.select_fails = false)
    (hempty : st.scores.filter (fun s => decide (s.song_id = sg.id)) = []) :
    Song.delete sg st
      = .ok { st with songs := st.songs.filter (fun s => !decide (s.id = sg.id)) } := by
  unfold Song.delete
  rw [hempty, if_neg (show ¬ st.select_fails = true by rw [hsel]; exact Bool.false_ne_true)]
  rfl

/-- Merge loop on a single overlapping (player, league) pair, duplicate score
strictly higher: the target's row is deleted from the store and the duplicate
row is re-pointed at the target carrying the summed play count. -/
theorem mergeLoop_pair_lt (tid : Int) (sd tsc : Score) (st : DbState)
    (hp : tsc.player_id = sd.player_id) (hl : tsc.league = sd.league)
    (hcmp : tsc.score < sd.score) :
    mergeLoop tid [sd] [tsc] st
      = .ok ([tsc],
          { st with
            scores := (st.scores.filter (fun s => !decide (s.id = tsc.id))).map
              (fun s => if s.id = sd.id
                then { sd with song_id := tid,
                               play_count := sd.play_count + tsc.play_count }
                else s),
            skill_points := addPoints st.skill_points tsc.player_id (-tsc.score) }) := by
  simp only [mergeLoop, mergeOne, hp, hl, and_self, ↓reduceIte, if_pos hcmp,
    Score.delete, saveScore]

/-- Merge loop on a single overlapping (player, league) pair, target score at
least as high: the target's row absorbs the duplicate's play count and the
duplicate row is deleted. -/
theorem mergeLoop_pair_ge (tid : Int) (sd tsc : Score) (st : DbState)
    (hp : tsc.player_id = sd.player_id) (hl : tsc.league = sd.league)
    (hcmp : ¬ tsc.score < sd.score) :
    mergeLoop tid [sd] [tsc] st
      = .ok ([{ tsc with play_count := tsc.play_count + sd.play_count }],
          { st with
            scores := (st.scores.map
              (fun s => if s.id = tsc.id
                then { tsc with play_count := tsc.play_count + sd.play_count }
                else s)).filter (fun s => !decide (s.id = sd.id)),
            skill_points := addPoints st.skill_points sd.player_id (-sd.score) }) := by
  simp only [mergeLoop, mergeOne, hp, hl, and_self, ↓reduceIte, if_neg hcmp,
    Score.delete, saveScore]

/-- C1: merging a duplicate into a distinct target when each holds exactly
one Score for the same (player, league) succeeds, and afterwards exactly one
Score for that pair remains on either song — it belongs to the target, its
value is max(v_d, v_t), its play count is p_d + p_t — and the duplicate Song
row is gone. -/
theorem merge_conserves_overlapping_pair
    (st : DbState) (d t : Song) (sd tsc : Score) (b : Bool)
    (hsel : st.select_fails = false)
    (hins : st.insert_fails = false)
    (hfind : st.songs.find? (fun s => decide (s.id = t.id)) = some t)
    (hne : d.id ≠ t.id)
    (hd : st.scores.filter (fun s => decide (s.song_id = d.id)) = [sd])
    (ht : st.scores.filter (fun s => decide (s.song_id = t.id)) = [tsc])
    (hp : tsc.player_id = sd.player_id)
    (hl : tsc.league = sd.league)
    (hnd : st.scores.Pairwise (fun a c => a.id ≠ c.id)) :
    ∃ st', d.merge_into t.id b st = .ok st' ∧
      (∃ surv ∈ st'.scores,
        surv.song_id = t.id ∧ surv.player_id = sd.player_id ∧ surv.league = sd.league ∧
        surv.score = max sd.score tsc.score ∧
        surv.play_count = sd.play_count + tsc.play_count ∧
        ∀ x ∈ st'.scores,
          (x.song_id = d.id ∨ x.song_id = t.id) → x.player_id = sd.player_id →
            x.league = sd.league → x = surv) ∧
      st'.scores.Pairwise (fun a c => a.id ≠ c.id) ∧
      (∀ s ∈ st'.songs, s.id ≠ d.id) := by
  have hsd1 : sd ∈ st.scores.filter (fun s => decide (s.song_id = d.id)) := by
    rw [hd]; exact List.mem_singleton_self sd
  have hsd_mem : sd ∈ st.scores := (List.mem_filter.mp hsd1).1
  have hsd_song : sd.song_id = d.id := by
    have h2 := (List.mem_filter.mp hsd1).2; simpa using h2
  have htsc1 : tsc ∈ st.scores.filter (fun s => decide (s.song_id = t.id)) := by
    rw [ht]; exact List.mem_singleton_self tsc
  have htsc_mem : tsc ∈ st.scores := (List.mem_filter.mp htsc1).1
  have htsc_song : tsc.song_id = t.id := by
    have h2 := (List.mem_filter.mp htsc1).2; simpa using h2
  have hsym : Symmetric (fun a c : Score => a.id ≠ c.id) :=
    fun a c h he => h he.symm
  have huniq_t : ∀ x ∈ st.scores, x.id = tsc.id → x = tsc := by
    intro x hx hxid
    by_contra hxne
    exact List.Pairwise.forall hsym hnd hx htsc_mem hxne hxid
  have hsdid : sd.id ≠ tsc.id := by
    intro hcon
    exact hne (by rw [← hsd_song, huniq_t sd hsd_mem hcon, htsc_song])
  have hselne : ¬ st.select_fails = true := by rw [hsel]; exact Bool.false_ne_true
  by_cases hcmp : tsc.score < sd.score
  · -- duplicate score strictly higher: its row survives, re-pointed
    simp only [Song.merge_into, hfind, hd, ht, mergeLoop_pair_lt t.id sd tsc st hp hl hcmp]
    rw [if_neg hselne]
    obtain ⟨st2, ha, hsc2, hsg2, hsf2⟩ :=
      aliasStep_preserves d t b
        { st with
          scores := (st.scores.filter (fun s => !decide (s.id = tsc.id))).map
            (fun s => if s.id = sd.id
              then { sd with song_id := t.id,
                             play_count := sd.play_count + tsc.play_count }
              else s),
          skill_points := addPoints st.skill_points tsc.player_id (-tsc.score) }
        hsel hins
    rw [ha]
    have hempty2 : st2.scores.filter (fun s => decide (s.song_id = d.id)) = [] := by
      rw [hsc2]
      apply List.filter_eq_nil_iff.mpr
      intro x hx
      simp only [List.mem_map, List.mem_filter, Bool.not_eq_eq_eq_not, Bool.not_true,
        decide_eq_false_iff_not] at hx
      obtain ⟨y, ⟨hymem, hyid⟩, hxy⟩ := hx
      by_cases hys : y.id = sd.id
      · rw [if_pos hys] at hxy
        subst hxy
        simp only [decide_eq_true_eq]
        exact fun hc => hne hc.symm
      · rw [if_neg hys] at hxy
        subst hxy
        simp only [decide_eq_true_eq]
        intro hyd
        have hy2 : y ∈ st.scores.filter (fun s => decide (s.song_id = d.id)) :=
          List.mem_filter.mpr ⟨hymem, by simpa using hyd⟩
        rw [hd] at hy2
        exact hys (by rw [List.mem_singleton.mp hy2])
    refine ⟨_, song_delete_of_no_scores d st2 (hsf2.trans hsel) hempty2, ?_, ?_, ?_⟩
    · refine ⟨{ sd with song_id := t.id, play_count := sd.play_count + tsc.play_count },
        ?_, rfl, rfl, rfl, (max_eq_left hcmp.le).symm, rfl, ?_⟩
      · show _ ∈ st2.scores
        rw [hsc2]
        refine List.mem_map.mpr ⟨sd, List.mem_filter.mpr ⟨hsd_mem, by simpa using hsdid⟩, ?_⟩
        rw [if_pos rfl]
      · intro x hx hsong hpl hlg
        have hx2 : x ∈ st2.scores := hx
        rw [hsc2] at hx2
        simp only [List.mem_map, List.mem_filter, Bool.not_eq_eq_eq_not, Bool.not_true,
          decide_eq_false_iff_not] at hx2
        obtain ⟨y, ⟨hymem, hyid⟩, hxy⟩ := hx2
        by_cases hys : y.id = sd.id
        · rw [if_pos hys] at hxy
          exact hxy.symm
        · rw [if_neg hys] at hxy
          subst hxy
          rcases hsong with hyd | hyt
          · have hy2 : y ∈ st.scores.filter (fun s => decide (s.song_id = d.id)) :=
              List.mem_filter.mpr ⟨hymem, by simpa using hyd⟩
            rw [hd] at hy2
            exact absurd (by rw [List.mem_singleton.mp hy2]) hys
          · have hy2 : y ∈ st.scores.filter (fun s => decide (s.song_id = t.id)) :=
              List.mem_filter.mpr ⟨hymem, by simpa using hyt⟩
            rw [ht] at hy2
            exact absurd (by rw [List.mem_singleton.mp hy2]) hyid
    · show st2.scores.Pairwise (fun a c => a.id ≠ c.id)
      rw [hsc2]
      refine List.pairwise_map.mpr
        ((List.Pairwise.sublist (List.filter_sublist _) hnd).imp ?_)
      intro a c h
      show (if a.id = sd.id
              then { sd with song_id := t.id,
                             play_count := sd.play_count + tsc.play_count }
              else a).id
          ≠ (if c.id = sd.id
              then { sd with song_id := t.id,
                             play_count := sd.play_count + tsc.play_count }
              else c).id
      by_cases ha : a.id = sd.id
      · by_cases hc2 : c.id = sd.id
        · exact (h (ha.trans hc2.symm)).elim
        · rw [if_pos ha, if_neg hc2]
          exact fun hq => h (ha.trans hq)
      · by_cases hc2 : c.id = sd.id
        · rw [if_neg ha, if_pos hc2]
          exact fun hq => h (hq.trans hc2.symm)
        · rw [if_neg ha, if_neg hc2]
          exact h
    · intro s hs
      have hs2 := List.mem_filter.mp hs
      simpa using hs2.2
  · -- target score at least as high: the target's row survives
    simp only [Song.merge_into, hfind, hd, ht, mergeLoop_pair_ge t.id sd tsc st hp hl hcmp]
    rw [if_neg hselne]
    obtain ⟨st2, ha, hsc2, hsg2, hsf2⟩ :=
      aliasStep_preserves d t b
        { st with
          scores := (st.scores.map
            (fun s => if s.id = tsc.id
              then { tsc with play_count := tsc.play_count + sd.play_count }
              else s)).filter (fun s => !decide (s.id = sd.id)),
          skill_points := addPoints st.skill_points sd.player_id (-sd.score) }
        hsel hins
    rw [ha]
    have hempty2 : st2.scores.filter (fun s => decide (s.song_id = d.id)) = [] := by
      rw [hsc2]
      apply List.filter_eq_nil_iff.mpr
      intro x hx
      simp only [List.mem_filter, List.mem_map, Bool.not_eq_eq_eq_not, Bool.not_true,
        decide_eq_false_iff_not] at hx
      obtain ⟨⟨y, hymem, hxy⟩, hxid⟩ := hx
      by_cases hys : y.id = tsc.id
      · rw [if_pos hys] at hxy
        subst hxy
        simp only [decide_eq_true_eq]
        exact fun hc => hne (htsc_song ▸ hc).symm
      · rw [if_neg hys] at hxy
        subst hxy
        simp only [decide_eq_true_eq]
        intro hyd
        have hy2 : y ∈ st.scores.filter (fun s => decide (s.song_id = d.id)) :=
          List.mem_filter.mpr ⟨hymem, by simpa using hyd⟩
        rw [hd] at hy2
        exact hxid (by rw [List.mem_singleton.mp hy2])
    refine ⟨_, song_delete_of_no_scores d st2 (hsf2.trans hsel) hempty2, ?_, ?_, ?_⟩
    · refine ⟨{ tsc with play_count := tsc.play_count + sd.play_count },
        ?_, htsc_song, hp, hl, (max_eq_right (not_lt.mp hcmp)).symm,
        add_comm tsc.play_count sd.play_count ▸ rfl, ?_⟩
      · show _ ∈ st2.scores
        rw [hsc2]
        refine List.mem_filter.mpr ⟨List.mem_map.mpr ⟨tsc, htsc_mem, ?_⟩, ?_⟩
        · rw [if_pos rfl]
        · simpa using fun hc => hsdid hc.symm
      · intro x hx hsong hpl hlg
        have hx2 : x ∈ st2.scores := hx
        rw [hsc2] at hx2
        simp only [List.mem_filter, List.mem_map, Bool.not_eq_eq_eq_not, Bool.not_true,
          decide_eq_false_iff_not] at hx2
        obtain ⟨⟨y, hymem, hxy⟩, hxid⟩ := hx2
        by_cases hys : y.id = tsc.id
        · rw [if_pos hys] at hxy
          exact hxy.symm
        · rw [if_neg hys] at hxy
          subst hxy
          rcases hsong with hyd | hyt
          · have hy2 : y ∈ st.scores.filter (fun s => decide (s.song_id = d.id)) :=
              List.mem_filter.mpr ⟨hymem, by simpa using hyd⟩
            rw [hd] at hy2
            exact absurd (by rw [List.mem_singleton.mp hy2]) hxid
          · have hy2 : y ∈ st.scores.filter (fun s => decide (s.song_id = t.id)) :=
              List.mem_filter.mpr ⟨hymem, by simpa using hyt⟩
            rw [ht] at hy2
            exact absurd (by rw [List.mem_singleton.mp hy2]) hys
    · show st2.scores.Pairwise (fun a c => a.id ≠ c.id)
      rw [hsc2]
      refine List.Pairwise.sublist (List.filter_sublist _) ?_
      refine List.pairwise_map.mpr (hnd.imp ?_)
      intro a c h
      show (if a.id = tsc.id
              then { tsc with play_count := tsc.play_count + sd.play_count }
              else a).id
          ≠ (if c.id = tsc.id
              then { tsc with play_count := tsc.play_count + sd.play_count }
              else c).id
      by_cases ha : a.id = tsc.id
      · by_cases hc2 : c.id = tsc.id
        · exact (h (ha.trans hc2.symm)).elim
        · rw [if_pos ha, if_neg hc2]
          exact fun hq => h (ha.trans hq)
      · by_cases hc2 : c.id = tsc.id
        · rw [if_neg ha, if_pos hc2]
          exact fun hq => h (hq.trans hc2.symm)
        · rw [if_neg ha, if_neg hc2]
          exact h
    · intro s hs
      have hs2 := List.mem_filter.mp hs
      simpa using hs2.2

/-- Replacing the row with id `i` and then filtering out id `i` is the same
as filtering alone: the replacement only rewrites rows the filter drops. -/
theorem filter_map_replace_id (l : List Score) (row : Score) (i : Int)
    (hrow : row.id = i) :
    (l.map (fun s => if s.id = row.id then row else s)).filter
        (fun s => !decide (s.id = i))
      = l.filter (fun s => !decide (s.id = i)) := by
  induction l with
  | nil => rfl
  | cons x xs ih =>
    by_cases hx : x.id = row.id
    · simp only [List.map_cons, if_pos hx, List.filter_cons]
      rw [show (!decide (row.id = i)) = false by simp [hrow],
          show (!decide (x.id = i)) = false by simp [hx, hrow]]
      simpa using ih
    · simp only [List.map_cons, if_neg hx, List.filter_cons, ih]

/-- `FindsSelf` only depends on the key projection of the vector, so it
survives the play-count rewrites the loop performs. -/
theorem findsSelf_transfer (o : Score) : ∀ (ts1 ts2 : List Score),
    ts1.map Score.key = ts2.map Score.key → FindsSelf ts1 o → FindsSelf ts2 o := by
  intro ts1
  induction ts1 with
  | nil =>
    intro ts2 hk h
    exact absurd h (by simp [FindsSelf])
  | cons e rest ih =>
    intro ts2 hk h
    cases ts2 with
    | nil => simp at hk
    | cons e2 rest2 =>
      simp only [List.map_cons, List.cons.injEq] at hk
      obtain ⟨hke, hkr⟩ := hk
      have hpe : e.player_id = e2.player_id := by
        have hq := congrArg Score.player_id hke; exact hq
      have hle : e.league = e2.league := by
        have hq := congrArg Score.league hke; exact hq
      have hse : e.score = e2.score := by
        have hq := congrArg Score.score hke; exact hq
      have hie : e.id = e2.id := by
        have hq := congrArg Score.id hke; exact hq
      unfold FindsSelf at h ⊢
      by_cases hc : e.player_id = o.player_id ∧ e.league = o.league
      · rw [if_pos hc] at h
        rw [if_pos ⟨hpe.symm.trans hc.1, hle.symm.trans hc.2⟩]
        exact ⟨hse.symm.trans h.1, hie.symm.trans h.2⟩
      · rw [if_neg hc] at h
        rw [if_neg (fun hc2 => hc ⟨hpe.trans hc2.1, hle.trans hc2.2⟩)]
        exact ih rest2 hkr h

/-- When the (player, league) pairs of a score list are pairwise distinct —
the database invariant of at most one Score per (player, song, league) — every
entry's first match in the list is the entry itself. -/
theorem findsSelf_of_pairwise : ∀ (L : List Score),
    L.Pairwise (fun a c => ¬(a.player_id = c.player_id ∧ a.league = c.league)) →
    ∀ o ∈ L, FindsSelf L o := by
  intro L
  induction L with
  | nil =>
    intro _ o ho
    exact absurd ho (List.not_mem_nil o)
  | cons e rest ih =>
    intro hPW o ho
    have hPW2 := List.pairwise_cons.mp hPW
    unfold FindsSelf
    rcases List.mem_cons.mp ho with rfl | hmem
    · rw [if_pos ⟨rfl, rfl⟩]
      exact ⟨rfl, rfl⟩
    · rw [if_neg (hPW2.1 o hmem)]
      exact ih hPW2.2 o hmem

/-- One self-merge loop iteration: when the in-memory vector resolves `o` to
its own copy, the non-strict comparison branch runs, `o`'s row is deleted from
the store (the vector entry keeps only a doubled play count, preserving its
key), and the state loses exactly the row with `o`'s id. -/
theorem mergeOne_self_delete (tid : Int) (o : Score) : ∀ (ts : List Score) (st : DbState),
    FindsSelf ts o →
    ∃ ts', mergeOne tid o ts st
        = .ok (ts', { st with
            scores := st.scores.filter (fun s => !decide (s.id = o.id)),
            skill_points := addPoints st.skill_points o.player_id (-o.score) }) ∧
      ts'.map Score.key = ts.map Score.key := by
  intro ts
  induction ts with
  | nil =>
    intro st h
    exact absurd h (by simp [FindsSelf])
  | cons e rest ih =>
    intro st h
    unfold FindsSelf at h
    by_cases hc : e.player_id = o.player_id ∧ e.league = o.league
    · rw [if_pos hc] at h
      obtain ⟨hsc, hid⟩ := h
      refine ⟨{ e with play_count := e.play_count + o.play_count } :: rest, ?_, ?_⟩
      · unfold mergeOne
        rw [if_pos hc, if_neg (show ¬ e.score < o.score by rw [hsc]; exact lt_irrefl o.score)]
        exact congrArg (fun l => (Except.ok
          ({ e with play_count := e.play_count + o.play_count } :: rest,
            { st with scores := l,
                      skill_points := addPoints st.skill_points o.player_id (-o.score) })
          : Except DbError (List Score × DbState)))
          (filter_map_replace_id st.scores
            { e with play_count := e.play_count + o.play_count } o.id hid)
      · simp [Score.key]
    · rw [if_neg hc] at h
      obtain ⟨ts', heq, hkey⟩ := ih st h
      refine ⟨e :: ts', ?_, ?_⟩
      · unfold mergeOne
        rw [if_neg hc, heq]
      · simp [hkey]

/-- The whole self-merge loop deletes exactly the rows whose ids occur in
`own`, leaving songs and the failure flags untouched. -/
theorem mergeLoop_self_deletes (tid : Int) : ∀ (own ts : List Score) (st : DbState),
    (∀ o ∈ own, FindsSelf ts o) →
    ∃ ts' st', mergeLoop tid own ts st = .ok (ts', st') ∧
      st'.scores = removeIds own st.scores ∧
      st'.songs = st.songs ∧
      st'.select_fails = st.select_fails ∧
      ts'.map Score.key = ts.map Score.key := by
  intro own
  induction own with
  | nil =>
    intro ts st _
    exact ⟨ts, st, rfl, rfl, rfl, rfl, rfl⟩
  | cons o os ih =>
    intro ts st h
    obtain ⟨ts1, heq1, hkey1⟩ :=
      mergeOne_self_delete tid o ts st (h o (List.mem_cons_self o os))
    obtain ⟨ts2, st2, heq2, hsc, hsg, hsf, hkey2⟩ :=
      ih ts1
        { st with scores := st.scores.filter (fun s => !decide (s.id = o.id)),
                  skill_points := addPoints st.skill_points o.player_id (-o.score) }
        (fun o' ho' =>
          findsSelf_transfer o' ts ts1 hkey1.symm (h o' (List.mem_cons_of_mem o ho')))
    refine ⟨ts2, st2, ?_, hsc, hsg, hsf, hkey2.trans hkey1⟩
    unfold mergeLoop
    rw [heq1]
    exact heq2

/-- Membership after `removeIds`: still a member of the base list, and its id
differs from every removed id. -/
theorem mem_of_mem_removeIds : ∀ (own l : List Score) (x : Score),
    x ∈ removeIds own l → x ∈ l ∧ ∀ o ∈ own, ¬ x.id = o.id := by
  intro own
  induction own with
  | nil =>
    intro l x hx
    exact ⟨hx, by simp⟩
  | cons o os ih =>
    intro l x hx
    obtain ⟨hmem, hrest⟩ := ih _ x hx
    have hm2 := List.mem_filter.mp hmem
    refine ⟨hm2.1, ?_⟩
    intro o' ho'
    rcases List.mem_cons.mp ho' with rfl | ho2
    · simpa using hm2.2
    · exact hrest o' ho2

/-- C9 (implicit): `merge_into` never checks `target_id` against the song's
own id. Self-merging a song succeeds with `Ok`, and afterwards the song row
and every one of its Score rows are gone: each score matches its own copy in
the target list, takes the non-strict branch and is deleted, and the final
deletion removes the song. The (player, league) pairwise-distinctness
hypothesis is the store invariant of one Score per (player, song, league). -/
theorem self_merge_destroys_history (st : DbState) (sg : Song)
    (hsel : st.select_fails = false)
    (hfind : st.songs.find? (fun s => decide (s.id = sg.id)) = some sg)
    (hPW : (st.scores.filter (fun s => decide (s.song_id = sg.id))).Pairwise
      (fun a c => ¬(a.player_id = c.player_id ∧ a.league = c.league))) :
    ∃ st', sg.merge_into sg.id false st = .ok st' ∧
      (∀ x ∈ st'.scores, x.song_id ≠ sg.id) ∧
      (∀ s ∈ st'.songs, s.id ≠ sg.id) := by
  have hselne : ¬ st.select_fails = true := by rw [hsel]; exact Bool.false_ne_true
  obtain ⟨ts2, st2, hloop, hsc, hsg2, hsf, _⟩ :=
    mergeLoop_self_deletes sg.id (st.scores.filter (fun s => decide (s.song_id = sg.id)))
      (st.scores.filter (fun s => decide (s.song_id = sg.id))) st
      (findsSelf_of_pairwise _ hPW)
  have hempty : st2.scores.filter (fun s => decide (s.song_id = sg.id)) = [] := by
    rw [hsc]
    apply List.filter_eq_nil_iff.mpr
    intro x hx
    obtain ⟨hmem, hrest⟩ := mem_of_mem_removeIds _ _ x hx
    simp only [decide_eq_true_eq]
    intro hxs
    exact hrest x (List.mem_filter.mpr ⟨hmem, by simpa using hxs⟩) rfl
  simp only [Song.merge_into, hfind, hloop]
  rw [if_neg hselne]
  refine ⟨_, song_delete_of_no_scores sg st2 (hsf.trans hsel) hempty, ?_, ?_⟩
  · intro x hx
    have hx2 : x ∈ st2.scores := hx
    rw [hsc] at hx2
    obtain ⟨hmem, hrest⟩ := mem_of_mem_removeIds _ _ x hx2
    intro hxs
    exact hrest x (List.mem_filter.mpr ⟨hmem, by simpa using hxs⟩) rfl
  · intro s hs
    have hs2 := List.mem_filter.mp hs
    simpa using hs2.2

/-- Duplicate song for the C1 witness. -/
def dupC1 : Song := { id := 1, title := "Dup", artist := "A", created_at := 0, modifiers := none }

/-- Target song for the C1 witness. -/
def canonC1 : Song := { id := 2, title := "Canon", artist := "A", created_at := 0, modifiers := none }

/-- Player 7's score on the duplicate: value 100 after 3 plays. -/
def sdC1 : Score :=
  { id := 11, player_id := 7, song_id := 1, league := .casual, score := 100, play_count := 3,
    vehicle := 0, track_shape := [], xstats := [], density := 0, feats := [],
    song_length := 10, gold_threshold := 1, iss := 0, isj := 0 }

/-- Player 7's score on the target: value 80 after 4 plays. -/
def tscC1 : Score :=
  { id := 12, player_id := 7, song_id := 2, league := .casual, score := 80, play_count := 4,
    vehicle := 0, track_shape := [], xstats := [], density := 0, feats := [],
    song_length := 10, gold_threshold := 1, iss := 0, isj := 0 }

/-- Store for the C1 witness: both songs, one overlapping score each. -/
def mergeC1State : DbState :=
  { emptyState with songs := [dupC1, canonC1], scores := [sdC1, tscC1],
                    skill_points := [(7, 180)], next_song_id := 3, next_score_id := 13 }

/-- Witness for C1: merging song 1 into song 2 when player 7 holds 100 (3
plays) on the duplicate and 80 (4 plays) on the target — every hypothesis is
discharged concretely and the theorem applies. -/
theorem merge_conserves_overlapping_pair_witness :
    mergeC1State.scores.filter (fun s => decide (s.song_id = dupC1.id)) = [sdC1] ∧
    mergeC1State.scores.filter (fun s => decide (s.song_id = canonC1.id)) = [tscC1] ∧
    (∃ st', dupC1.merge_into canonC1.id false mergeC1State = .ok st' ∧
      (∃ surv ∈ st'.scores,
        surv.song_id = canonC1.id ∧ surv.player_id = sdC1.player_id ∧
        surv.league = sdC1.league ∧ surv.score = max sdC1.score tscC1.score ∧
        surv.play_count = sdC1.play_count + tscC1.play_count ∧
        ∀ x ∈ st'.scores,
          (x.song_id = dupC1.id ∨ x.song_id = canonC1.id) →
            x.player_id = sdC1.player_id → x.league = sdC1.league → x = surv) ∧
      st'.scores.Pairwise (fun a c => a.id ≠ c.id) ∧
      (∀ s ∈ st'.songs, s.id ≠ dupC1.id)) :=
  ⟨by decide, by decide,
   merge_conserves_overlapping_pair mergeC1State dupC1 canonC1 sdC1 tscC1 false
     rfl rfl (by decide) (by decide) (by decide) (by decide) rfl rfl
     (by decide)⟩

/-- Song for the C9 self-merge witness. -/
def selfSong : Song := { id := 4, title := "Self", artist := "S", created_at := 0, modifiers := none }

/-- First score of `selfSong` (player 7, Casual). -/
def selfScore1 : Score :=
  { id := 21, player_id := 7, song_id := 4, league := .casual, score := 50, play_count := 2,
    vehicle := 0, track_shape := [], xstats := [], density := 0, feats := [],
    song_length := 10, gold_threshold := 1, iss := 0, isj := 0 }

/-- Second score of `selfSong` (player 8, Pro). -/
def selfScore2 : Score :=
  { id := 22, player_id := 8, song_id := 4, league := .pro, score := 60, play_count := 1,
    vehicle := 0, track_shape := [], xstats := [], density := 0, feats := [],
    song_length := 10, gold_threshold := 1, iss := 0, isj := 0 }

/-- Store for the C9 witness: one song holding two scores. -/
def selfMergeState : DbState :=
  { emptyState with songs := [selfSong], scores := [selfScore1, selfScore2],
                    skill_points := [(7, 50), (8, 60)], next_song_id := 5,
                    next_score_id := 23 }

/-- Witness for C9: self-merging song 4 returns `Ok` and leaves neither the
song nor any of its two scores behind. -/
theorem self_merge_destroys_history_witness :
    selfMergeState.songs.find? (fun s => decide (s.id = selfSong.id)) = some selfSong ∧
    (∃ st', selfSong.merge_into selfSong.id false selfMergeState = .ok st' ∧
      (∀ x ∈ st'.scores, x.song_id ≠ selfSong.id) ∧
      (∀ s ∈ st'.songs, s.id ≠ selfSong.id)) :=
  ⟨rfl, self_merge_destroys_history selfMergeState selfSong rfl rfl (by decide)⟩

end Wavebreaker
